import Mathlib

/-!
Shallow embedding of the track loader in src/esrally/track/loader.py.

JSON documents (the result of json.loads on the rendered track file) are
modelled by the inductive type JsonVal.  Python exceptions that the loader
either raises or lets escape are modelled by the inductive type PyErr;
fallible code returns Except PyErr.  Machine file sizes are Nat, JSON
integers are Int.  Console and log output is pure I/O in the source and is
modelled only where a claim depends on it (as explicit event values);
informational messages are otherwise dropped.
-/

namespace Rally

/-- A JSON-like value as produced by json.loads on a rendered track file.
Objects are insertion-ordered association lists, as Python dicts are. -/
inductive JsonVal where
  | null
  | bool (b : Bool)
  | num (n : Int)
  | str (s : String)
  | arr (elems : List JsonVal)
  | obj (fields : List (String × JsonVal))

/-- The Python exceptions that can escape the loader code under study.
keyError carries only the offending key: a plain KeyError has no track or
challenge attribution.  The message payloads of typeError, attributeError
and osError are schematic (no claim inspects them); all other payloads are
the exact message strings built by the source. -/
inductive PyErr where
  | keyError (key : String)
  | typeError (msg : String)
  | attributeError (msg : String)
  | osError (msg : String)
  | trackSyntaxError (msg : String)
  | systemSetupError (msg : String)
  | dataError (msg : String)
  | supplyError (msg : String)
deriving DecidableEq

/-- Key lookup in a JSON object (Python dict access by string key). -/
def lookup1 (fields : List (String × JsonVal)) (k : String) : Option JsonVal :=
  match fields.find? (fun kv => kv.1 == k) with
  | some kv => some kv.2
  | none => none

/-- structure[k] for a string key k: KeyError when an object lacks the key,
TypeError when the value is not a dict (list and str demand integer keys,
scalars are not subscriptable). -/
def getIndex (v : JsonVal) (k : String) : Except PyErr JsonVal :=
  match v with
  | .obj fields =>
    match lookup1 fields k with
    | some w => .ok w
    | none => .error (.keyError k)
  | .arr _ => .error (.typeError "list indices must be integers or slices, not str")
  | .str _ => .error (.typeError "string indices must be integers")
  | _ => .error (.typeError "object is not subscriptable")

/-- The traversal loop of TrackSpecificationReader._r: walks the dotted
path one key at a time, the first exception aborting the walk. -/
def walk (v : JsonVal) (path : List String) : Except PyErr JsonVal :=
  match path with
  | [] => .ok v
  | k :: ks =>
    match getIndex v k with
    | .ok v1 => walk v1 ks
    | .error e => .error e

mutual

/-- The Python str of a value, used by percent-s formatting in messages.
The scalar cases are exact; the container cases approximate the CPython
repr (string elements are rendered without their quotes). -/
def pyStr : JsonVal → String
  | .null => "None"
  | .bool b => if b then "True" else "False"
  | .num n => toString n
  | .str s => s
  | .arr l => "[" ++ pyStrElems l ++ "]"
  | .obj fields => "\x7b" ++ pyStrFields fields ++ "\x7d"

/-- Comma-joined list elements for pyStr. -/
def pyStrElems : List JsonVal → String
  | [] => ""
  | [x] => pyStr x
  | x :: xs => pyStr x ++ ", " ++ pyStrElems xs

/-- Comma-joined key-value pairs for pyStr. -/
def pyStrFields : List (String × JsonVal) → String
  | [] => ""
  | [kv] => "\x27" ++ kv.1 ++ "\x27: " ++ pyStr kv.2
  | kv :: xs => "\x27" ++ kv.1 ++ "\x27: " ++ pyStr kv.2 ++ ", " ++ pyStrFields xs

end

/-- Python truthiness of a JSON value (empty containers, zero, empty
string, None and False are falsy). -/
def truthy : JsonVal → Bool
  | .null => false
  | .bool b => b
  | .num n => n != 0
  | .str s => s != ""
  | .arr l => !l.isEmpty
  | .obj fields => !fields.isEmpty

/-- Iterating a JSON value with a Python for loop: lists yield their
elements, strings their one-character substrings, dicts their keys;
scalars raise TypeError. -/
def pyIter : JsonVal → Except PyErr (List JsonVal)
  | .arr l => .ok l
  | .str s => .ok (s.data.map (fun c => .str (String.mk [c])))
  | .obj fields => .ok (fields.map (fun kv => JsonVal.str kv.1))
  | _ => .error (.typeError "object is not iterable")

/-- Python equality between a JSON value and a string literal, as used by
list membership tests: only an equal string compares equal. -/
def pyEqStr (v : JsonVal) (s : String) : Bool :=
  match v with
  | .str t => t == s
  | _ => false

/-- Substring test on character lists (Python in on strings). -/
def strHas (hay needle : List Char) : Bool :=
  match hay with
  | [] => needle.isEmpty
  | _ :: t => if needle.isPrefixOf hay then true else strHas t needle

/-- The Python membership test s in v: key membership for dicts, element
equality for lists, substring for strings, TypeError for scalars. -/
def pyContains (v : JsonVal) (s : String) : Except PyErr Bool :=
  match v with
  | .obj fields => .ok (lookup1 fields s).isSome
  | .arr l => .ok (l.any (fun e => pyEqStr e s))
  | .str t => .ok (strHas t.data s.data)
  | _ => .error (.typeError "argument of type is not iterable")

/-- Python equality between dict keys: str with str, None with None, and
the numeric tower in which True equals 1 and False equals 0. -/
def keyEq : JsonVal → JsonVal → Bool
  | .null, .null => true
  | .str a, .str b => a == b
  | .bool a, .bool b => a == b
  | .bool a, .num b => (if a then (1 : Int) else 0) == b
  | .num a, .bool b => a == (if b then (1 : Int) else 0)
  | .num a, .num b => a == b
  | _, _ => false

/-- Whether a JSON value may serve as a Python dict key (lists and dicts
are unhashable). -/
def hashable : JsonVal → Bool
  | .arr _ => false
  | .obj _ => false
  | _ => true

/-- Python equality of a JSON value against a machine file size, as used
by the size comparisons of the Asset Stager (True equals 1, None and
strings never equal an int). -/
def jsonEqNat (j : JsonVal) (n : Nat) : Bool :=
  keyEq j (.num (n : Int))

/-- Percent-d formatting of a JSON value: ints and bools format, anything
else raises TypeError before the exception carrying the message is built. -/
def pyFmtD : JsonVal → Except PyErr String
  | .num n => .ok (toString n)
  | .bool b => .ok (if b then "1" else "0")
  | _ => .error (.typeError "format requires a number")

/-- Percent-f formatting (via convert.bytes_to_gb) of a JSON value: ints
and bools work, anything else raises TypeError. -/
def pyFmtF : JsonVal → Except PyErr Unit
  | .num _ => .ok ()
  | .bool _ => .ok ()
  | _ => .error (.typeError "unsupported operand type for division")

/-- Dot-joined path, Python dot-join of the path components. -/
def joinDot (path : List String) : String :=
  String.intercalate "." path

/-- TrackSpecificationReader._error: wraps a detail message with the track
attribution before raising TrackSyntaxError. -/
def trackError (name msg : String) : String :=
  "Track \x27" ++ name ++ "\x27 is invalid. " ++ msg

/-- The message of _r for a missing mandatory element with an error
context. -/
def mandatoryMissingInMsg (path : List String) (ctx : JsonVal) : String :=
  "Mandatory element \x27" ++ joinDot path ++ "\x27 is missing in \x27" ++ pyStr ctx ++ "\x27."

/-- The message of _r for a missing mandatory element without an error
context. -/
def mandatoryMissingMsg (path : List String) : String :=
  "Mandatory element \x27" ++ joinDot path ++ "\x27 is missing."

/-- TrackSpecificationReader._r: resolves a dotted path in a nested
mapping.  A KeyError anywhere in the walk is caught: mandatory lookups
turn it into a TrackSyntaxError whose message carries the context tag
when the tag is truthy (the source tests if error_ctx:, so the Python
default None and any falsy tag yield the bare message), optional lookups
return the default value.  Any other exception (TypeError from indexing a
non-dict) propagates.  name is the track name held in self.name. -/
def _r (name : String) (root : JsonVal) (path : List String) (error_ctx : JsonVal)
    (mandatory : Bool) (default_value : JsonVal) : Except PyErr JsonVal :=
  match walk root path with
  | .ok v => .ok v
  | .error (.keyError _) =>
    if mandatory then
      if truthy error_ctx then
        .error (.trackSyntaxError (trackError name (mandatoryMissingInMsg path error_ctx)))
      else
        .error (.trackSyntaxError (trackError name (mandatoryMissingMsg path)))
    else .ok default_value
  | .error e => .error e

/-- track.Operation: a named, typed unit of work.  params is the whole
operation spec object, exactly as the source passes op_spec.  The
constructor of track.Operation is not under src/; modelled from the spec,
which gives it no failure mode, so the except-InvalidSyntax arm of
parse_operations is unreachable in this model. -/
structure Operation where
  name : JsonVal
  operation_type : String
  params : JsonVal
  param_source : JsonVal

/-- track.Task: one scheduled execution of an operation.  All numeric
fields keep the JSON value the parser stored, including None. -/
structure Task where
  operation : Operation
  warmup_iterations : JsonVal
  warmup_time_period : JsonVal
  iterations : JsonVal
  clients : JsonVal
  target_throughput : JsonVal

/-- A schedule entry: a plain task or a track.Parallel block. -/
inductive ScheduleEntry where
  | task (t : Task)
  | parallel (tasks : List Task) (clients : JsonVal)

/-- track.Challenge. -/
structure Challenge where
  name : JsonVal
  description : JsonVal
  index_settings : JsonVal
  schedule : List ScheduleEntry

/-- track.Type, the document group of an index (named TrackType because
Type is reserved in Lean). -/
structure TrackType where
  name : JsonVal
  mapping_file : String
  document_file : Option String
  document_archive : Option String
  number_of_documents : JsonVal
  compressed_size_in_bytes : JsonVal
  uncompressed_size_in_bytes : JsonVal

/-- track.Index. -/
structure Index where
  name : JsonVal
  types : List TrackType

/-- track.Track. -/
structure Track where
  name : String
  short_description : JsonVal
  description : JsonVal
  source_root_url : JsonVal
  challenges : List Challenge
  indices : List Index

/-- The operations table built by parse_operations: an insertion-ordered
Python dict from operation name to Operation. -/
def OpsDict : Type := List (JsonVal × Operation)

/-- Dict membership by Python key equality. -/
def dictMem (ops : OpsDict) (k : JsonVal) : Bool :=
  (ops : List (JsonVal × Operation)).any (fun kv => keyEq kv.1 k)

/-- Dict lookup by Python key equality. -/
def dictGet (ops : OpsDict) (k : JsonVal) : Option Operation :=
  match (ops : List (JsonVal × Operation)).find? (fun kv => keyEq kv.1 k) with
  | some kv => some kv.2
  | none => none

/-- Dict assignment: replaces the value of an equal key in place, else
appends, as Python dicts do. -/
def dictInsert (ops : OpsDict) (k : JsonVal) (v : Operation) : OpsDict :=
  match ops with
  | [] => [(k, v)]
  | kv0 :: rest => if keyEq kv0.1 k then (kv0.1, v) :: rest else kv0 :: dictInsert rest k v

/-- Modelled from the spec: io.splitext is not under src/.  The spec calls
the decompressed path the extension-stripped counterpart of the archive
name, so this splits a path at its last dot (Python os.path.splitext on
paths whose final component carries an extension). -/
def splitext (s : String) : String × String :=
  if s.data.contains '.' then
    let revTail := s.data.reverse.takeWhile (fun c => c != '.')
    let ext : List Char := '.' :: revTail.reverse
    (String.mk (s.data.take (s.data.length - ext.length)), String.mk ext)
  else (s, "")

/-- os.path.basename: the part of the path after the last slash. -/
def basename (s : String) : String :=
  String.mk (s.data.reverse.takeWhile (fun c => c != '/')).reverse

/-- Modelled from the spec: io.dirname is not under src/; the directory
part of a path, as os.path.dirname (empty when there is no slash). -/
def dirname (s : String) : String :=
  if s.data.contains '/' then
    String.mk (s.data.take (s.data.length - (s.data.reverse.takeWhile (fun c => c != '/')).length - 1))
  else ""

/-- Modelled from the spec: track.OperationType is not under src/.  The
spec says the operation-type string is matched case/hyphen-insensitively
against a closed enumeration of built-in kinds, so normalisation lowers
the case and drops hyphens. -/
def normalize_op (s : String) : String :=
  String.mk ((s.data.filter (fun c => c != '-')).map Char.toLower)

/-- Modelled from the spec: track.OperationType.from_hyphenated_string is
not under src/.  Against a closed enumeration of canonical built-in kind
names, returns the first kind whose normalised name matches the normalised
input, and nothing on a miss (the KeyError the source catches). -/
def from_hyphenated_string (builtins : List String) (s : String) : Option String :=
  builtins.find? (fun c => normalize_op c == normalize_op s)

/-- The type stored by parse_operations: the canonical name of the matched
built-in kind, or the raw string verbatim when no built-in kind matches. -/
def resolve_op_type (builtins : List String) (s : String) : String :=
  match from_hyphenated_string builtins s with
  | some c => c
  | none => s

/-- TrackSpecificationReader.parse_operations: builds the name-to-operation
dict from the flat operations list.  Each spec yields its mandatory name
and operation-type, resolves the type against the built-in kinds (a
non-string type raises AttributeError from str.replace, uncaught), reads
the optional param-source, and assigns into the dict (an unhashable name
raises TypeError at the assignment). -/
def parse_operations (name : String) (builtins : List String) (specs : List JsonVal)
    (ops : OpsDict) : Except PyErr OpsDict :=
  match specs with
  | [] => .ok ops
  | op_spec :: rest => do
    let op_name ← _r name op_spec ["name"] (.str "operations") true .null
    let op_type_name ← _r name op_spec ["operation-type"] (.str "operations") true .null
    let op_type ←
      match op_type_name with
      | .str s => Except.ok (resolve_op_type builtins s)
      | _ => Except.error (.attributeError "object has no attribute replace")
    let param_source ← _r name op_spec ["param-source"] (.str "operations") false .null
    if hashable op_name then
      parse_operations name builtins rest
        (dictInsert ops op_name
          { name := op_name, operation_type := op_type, params := op_spec, param_source := param_source })
    else
      .error (.typeError "unhashable type")

/-- The detail message of the syntax error for a schedule entry naming an
operation absent from the operations table. -/
def nonExistingOpMsg (challenge_name op_name : JsonVal) : String :=
  "\x27schedule\x27 for challenge \x27" ++ pyStr challenge_name
    ++ "\x27 contains a non-existing operation \x27" ++ pyStr op_name
    ++ "\x27. Please add an operation \x27" ++ pyStr op_name
    ++ "\x27 to the \x27operations\x27 block."

/-- TrackSpecificationReader.parse_task.  The operation reference is read
by direct, unguarded indexing of the operation key, so a missing key
escapes as a plain KeyError and a non-dict spec as a TypeError.  A
resolvable name yields a Task whose warmup-iterations and iterations fall
back to the supplied defaults (0 and 1 at top level) and whose clients
fall back to 1. -/
def parse_task (name : String) (task_spec : JsonVal) (ops : OpsDict) (challenge_name : JsonVal)
    (default_warmup_iterations : JsonVal) (default_iterations : JsonVal) : Except PyErr Task := do
  let op_name ← getIndex task_spec "operation"
  if hashable op_name = false then
    Except.error (.typeError "unhashable type")
  else if dictMem ops op_name = false then
    Except.error (.trackSyntaxError (trackError name (nonExistingOpMsg challenge_name op_name)))
  else
    match dictGet ops op_name with
    | none => Except.error (.keyError (pyStr op_name))
    | some op => do
      let wi ← _r name task_spec ["warmup-iterations"] op_name false default_warmup_iterations
      let wtp ← _r name task_spec ["warmup-time-period"] op_name false .null
      let it ← _r name task_spec ["iterations"] op_name false default_iterations
      let cl ← _r name task_spec ["clients"] op_name false (.num 1)
      let tt ← _r name task_spec ["target-throughput"] op_name false .null
      Except.ok { operation := op, warmup_iterations := wi, warmup_time_period := wtp,
                  iterations := it, clients := cl, target_throughput := tt }

/-- The loop body of parse_parallel over the tasks list. -/
def parse_task_list (name : String) (task_specs : List JsonVal) (ops : OpsDict)
    (challenge_name : JsonVal) (default_warmup_iterations : JsonVal) (default_iterations : JsonVal) :
    Except PyErr (List Task) :=
  match task_specs with
  | [] => .ok []
  | t :: rest => do
    let task ← parse_task name t ops challenge_name default_warmup_iterations default_iterations
    let others ← parse_task_list name rest ops challenge_name default_warmup_iterations default_iterations
    .ok (task :: others)

/-- TrackSpecificationReader.parse_parallel: reads the optional block-wide
warmup-iterations, iterations and clients (each None when absent), then
parses every child task, passing the block values down as the defaults. -/
def parse_parallel (name : String) (ops_spec : JsonVal) (ops : OpsDict) (challenge_name : JsonVal) :
    Except PyErr ScheduleEntry := do
  let default_warmup_iterations ← _r name ops_spec ["warmup-iterations"] (.str "parallel") false .null
  let default_iterations ← _r name ops_spec ["iterations"] (.str "parallel") false .null
  let clients ← _r name ops_spec ["clients"] (.str "parallel") false .null
  let tasks_json ← _r name ops_spec ["tasks"] (.str "parallel") true .null
  let task_specs ← pyIter tasks_json
  let tasks ← parse_task_list name task_specs ops challenge_name default_warmup_iterations default_iterations
  .ok (.parallel tasks clients)

/-- The schedule loop of _create_challenges: an entry containing the
parallel key becomes a parallel block, any other entry a plain task with
the top-level defaults 0 and 1. -/
def parse_schedule_entries (name : String) (entries : List JsonVal) (ops : OpsDict)
    (challenge_name : JsonVal) : Except PyErr (List ScheduleEntry) :=
  match entries with
  | [] => .ok []
  | e :: rest => do
    let b ← pyContains e "parallel"
    let entry ←
      if b then do
        let pj ← getIndex e "parallel"
        parse_parallel name pj ops challenge_name
      else do
        let t ← parse_task name e ops challenge_name (.num 0) (.num 1)
        Except.ok (ScheduleEntry.task t)
    let others ← parse_schedule_entries name rest ops challenge_name
    .ok (entry :: others)

/-- The challenge loop of _create_challenges. -/
def parse_challenge_list (name : String) (ch_specs : List JsonVal) (ops : OpsDict) :
    Except PyErr (List Challenge) :=
  match ch_specs with
  | [] => .ok []
  | ch :: rest => do
    let challenge_name ← _r name ch ["name"] (.str "challenges") true .null
    let challenge_description ← _r name ch ["description"] challenge_name true .null
    let index_settings ← _r name ch ["index-settings"] challenge_name false .null
    let sched_json ← _r name ch ["schedule"] challenge_name true .null
    let entries ← pyIter sched_json
    let schedule ← parse_schedule_entries name entries ops challenge_name
    let others ← parse_challenge_list name rest ops
    .ok ({ name := challenge_name, description := challenge_description,
           index_settings := index_settings, schedule := schedule } :: others)

/-- TrackSpecificationReader._create_challenges: builds the operations
table, then parses every challenge with its schedule. -/
def _create_challenges (name : String) (builtins : List String) (track_spec : JsonVal) :
    Except PyErr (List Challenge) := do
  let ops_json ← _r name track_spec ["operations"] .null true .null
  let op_specs ← pyIter ops_json
  let ops ← parse_operations name builtins op_specs []
  let chs_json ← _r name track_spec ["challenges"] .null true .null
  let ch_specs ← pyIter chs_json
  parse_challenge_list name ch_specs ops

/-- TrackSpecificationReader._create_type: when a truthy documents entry
is declared, the archive path joins the dataset directory with it and the
document path with its extension-stripped counterpart (a non-string
documents value would reach io.splitext and raise a TypeError); both size
fields stay optional with no default, so an omitted size parses to None. -/
def _create_type (name : String) (type_spec : JsonVal) (mapping_dir data_dir : String) :
    Except PyErr TrackType := do
  let compressed_docs ← _r name type_spec ["documents"] .null false .null
  let paths : Option String × Option String ←
    if truthy compressed_docs then
      match compressed_docs with
      | .str d => Except.ok (some (data_dir ++ "/" ++ d), some (data_dir ++ "/" ++ (splitext d).1))
      | _ => Except.error (.typeError "splitext expects str")
    else Except.ok (none, none)
  let type_name ← _r name type_spec ["name"] .null true .null
  let mapping ← _r name type_spec ["mapping"] .null true .null
  let number_of_documents ← _r name type_spec ["document-count"] .null false (.num 0)
  let compressed_size ← _r name type_spec ["compressed-bytes"] .null false .null
  let uncompressed_size ← _r name type_spec ["uncompressed-bytes"] .null false .null
  Except.ok { name := type_name, mapping_file := mapping_dir ++ "/" ++ pyStr mapping,
              document_file := paths.2, document_archive := paths.1,
              number_of_documents := number_of_documents,
              compressed_size_in_bytes := compressed_size,
              uncompressed_size_in_bytes := uncompressed_size }

/-- The types loop of _create_index. -/
def create_type_list (name : String) (type_specs : List JsonVal) (mapping_dir data_dir : String) :
    Except PyErr (List TrackType) :=
  match type_specs with
  | [] => .ok []
  | t :: rest => do
    let ty ← _create_type name t mapping_dir data_dir
    let others ← create_type_list name rest mapping_dir data_dir
    .ok (ty :: others)

/-- TrackSpecificationReader._create_index.  The check whether any type
carries valid document data only emits a console warning (pure I/O) and is
not material to any claim, so the warning itself is not recorded. -/
def _create_index (name : String) (index_spec : JsonVal) (mapping_dir data_dir : String) :
    Except PyErr Index := do
  let index_name ← _r name index_spec ["name"] .null true .null
  let types_json ← _r name index_spec ["types"] .null true .null
  let type_specs ← pyIter types_json
  let types ← create_type_list name type_specs mapping_dir data_dir
  .ok { name := index_name, types := types }

/-- The indices loop of the reader. -/
def create_index_list (name : String) (index_specs : List JsonVal) (mapping_dir data_dir : String) :
    Except PyErr (List Index) :=
  match index_specs with
  | [] => .ok []
  | i :: rest => do
    let idx ← _create_index name i mapping_dir data_dir
    let others ← create_index_list name rest mapping_dir data_dir
    .ok (idx :: others)

/-- TrackSpecificationReader.__call__: reads the meta fields, the indices
and the challenges of a validated track specification into a Track. -/
def read_track_spec (track_name : String) (builtins : List String) (track_specification : JsonVal)
    (mapping_dir data_dir : String) : Except PyErr Track := do
  let short_description ← _r track_name track_specification ["meta", "short-description"] .null true .null
  let description ← _r track_name track_specification ["meta", "description"] .null true .null
  let source_root_url ← _r track_name track_specification ["meta", "data-url"] .null true .null
  let idx_json ← _r track_name track_specification ["indices"] .null true .null
  let idx_specs ← pyIter idx_json
  let indices ← create_index_list track_name idx_specs mapping_dir data_dir
  let challenges ← _create_challenges track_name builtins track_specification
  .ok { name := track_name, short_description := short_description, description := description,
        source_root_url := source_root_url, challenges := challenges, indices := indices }

/-- The local filesystem visible to the Asset Stager, as a finite map from
path to file size in bytes (a path absent from the map has no file). -/
def FS : Type := List (String × Nat)

/-- os.path.getsize and os.path.isfile combined: the size of the file at a
path, or nothing when no file exists there. -/
def fsGet (fs : FS) (p : String) : Option Nat :=
  match (fs : List (String × Nat)).find? (fun kv => kv.1 == p) with
  | some kv => some kv.2
  | none => none

/-- The ambient effects of prepare_track.  netEffect models net.download
(not under src/): the filesystem after attempting the download plus a flag
that is false when a URLError was raised (the source logs and swallows it
either way).  decompEffect models io.decompress (not under src/): the
filesystem after decompressing an archive into a directory.  The offset
table built by io.prepare_file_offset_table is a derived index file kept
apart from the data files it never modifies, so rebuilding it is recorded
as a counter, not a filesystem change. -/
structure Env where
  offline : Bool
  netEffect : String → String → FS → FS × Bool
  decompEffect : String → String → FS → FS

/-- The running state of one prepare_track invocation: the filesystem,
how often net.download and io.decompress were invoked, how many offset
tables were rebuilt, and the first uncaught exception if any. -/
structure StageState where
  fs : FS
  netCalls : Nat
  decompCalls : Nat
  offsetRebuilds : Nat
  err : Option PyErr

/-- The skip test of prepare_track.download: the local archive exists and
its byte size equals the expected compressed size. -/
def download_skip (local_path : String) (size_in_bytes : JsonVal) (fs : FS) : Bool :=
  match fsGet fs local_path with
  | some n => jsonEqNat size_in_bytes n
  | none => false

/-- The filesystem after the download step of prepare_track.download:
unchanged when the download is skipped or offline mode suppresses it, else
whatever net.download leaves behind. -/
def download_fs1 (env : Env) (url local_path : String) (size_in_bytes : JsonVal) (fs : FS) : FS :=
  if download_skip local_path size_in_bytes fs then fs
  else if env.offline then fs
  else (env.netEffect url local_path fs).1

/-- How often the download step invoked net.download. -/
def download_netCalls (env : Env) (local_path : String) (size_in_bytes : JsonVal) (fs : FS) : Nat :=
  if download_skip local_path size_in_bytes fs then 0
  else if env.offline then 0
  else 1

/-- The message of the SystemSetupError raised when the archive is missing
while offline. -/
def missingOfflineMsg (local_path : String) : String :=
  "Cannot find " ++ local_path ++ ". Please disable offline mode and retry again."

/-- The message of the SystemSetupError raised when the archive is missing
after an online download attempt. -/
def missingOnlineMsg (url local_path : String) : String :=
  "Cannot download from " ++ url ++ " to " ++ local_path
    ++ ". Please verify that data are available at " ++ url
    ++ " and check your internet connection."

/-- The message of the DataError raised on a compressed size mismatch. -/
def corruptDownloadMsg (local_path : String) (actual : Nat) (expected : String) : String :=
  "[" ++ local_path ++ "] is corrupt. Downloaded [" ++ toString actual ++ "] bytes but ["
    ++ expected ++ "] bytes are expected."

/-- The result of prepare_track.download: the filesystem, the net.download
invocation count, and either the Python return value or the exception. -/
structure DownloadOut where
  fs : FS
  netCalls : Nat
  result : Except PyErr Bool

/-- prepare_track.download: skips when the local archive already has the
expected size; otherwise attempts the download unless offline (a URLError
is logged and swallowed); then fails with SystemSetupError when no file
exists, with a mode-dependent message, and with DataError when the actual
size differs from the expected size, citing both byte counts. -/
def download (env : Env) (url local_path : String) (size_in_bytes : JsonVal) (fs : FS) :
    DownloadOut :=
  if download_skip local_path size_in_bytes fs then
    { fs := fs, netCalls := 0, result := .ok false }
  else
    match fsGet (download_fs1 env url local_path size_in_bytes fs) local_path with
    | none =>
      { fs := download_fs1 env url local_path size_in_bytes fs,
        netCalls := download_netCalls env local_path size_in_bytes fs,
        result := .error (.systemSetupError
          (if env.offline then missingOfflineMsg local_path else missingOnlineMsg url local_path)) }
    | some actual =>
      if jsonEqNat size_in_bytes actual then
        { fs := download_fs1 env url local_path size_in_bytes fs,
          netCalls := download_netCalls env local_path size_in_bytes fs, result := .ok true }
      else
        match pyFmtD size_in_bytes with
        | .ok expected =>
          { fs := download_fs1 env url local_path size_in_bytes fs,
            netCalls := download_netCalls env local_path size_in_bytes fs,
            result := .error (.dataError (corruptDownloadMsg local_path actual expected)) }
        | .error e =>
          { fs := download_fs1 env url local_path size_in_bytes fs,
            netCalls := download_netCalls env local_path size_in_bytes fs, result := .error e }

/-- The message of the DataError raised on an uncompressed size
mismatch. -/
def corruptExtractMsg (base : String) (extracted : Nat) (expected : String) : String :=
  "[" ++ base ++ "] is corrupt. Extracted [" ++ toString extracted ++ "] bytes but ["
    ++ expected ++ "] bytes are expected."

/-- The result of prepare_track.decompress: the filesystem, the
io.decompress invocation count, and either the decompressed path or the
exception. -/
structure DecompressOut where
  fs : FS
  decompCalls : Nat
  result : Except PyErr String

/-- The filesystem after io.decompress ran on the archive. -/
def decompress_fs1 (env : Env) (data_set_path : String) (fs : FS) : FS :=
  env.decompEffect data_set_path (dirname data_set_path) fs

/-- The non-skip path of prepare_track.decompress: formats the console
notice (whose gigabyte figure raises TypeError on a non-numeric expected
size before any work), decompresses, and verifies the extracted size,
failing with DataError on mismatch, citing both byte counts. -/
def decompress_run (env : Env) (data_set_path : String) (expected_size_in_bytes : JsonVal)
    (fs : FS) : DecompressOut :=
  match pyFmtF expected_size_in_bytes with
  | .error e => { fs := fs, decompCalls := 0, result := .error e }
  | .ok _ =>
    match fsGet (decompress_fs1 env data_set_path fs) (splitext data_set_path).1 with
    | none =>
      { fs := decompress_fs1 env data_set_path fs, decompCalls := 1,
        result := .error (.osError (splitext data_set_path).1) }
    | some extracted =>
      if jsonEqNat expected_size_in_bytes extracted then
        { fs := decompress_fs1 env data_set_path fs, decompCalls := 1,
          result := .ok (splitext data_set_path).1 }
      else
        match pyFmtD expected_size_in_bytes with
        | .ok expected =>
          { fs := decompress_fs1 env data_set_path fs, decompCalls := 1,
            result := .error (.dataError
              (corruptExtractMsg (splitext data_set_path).1 extracted expected)) }
        | .error e =>
          { fs := decompress_fs1 env data_set_path fs, decompCalls := 1, result := .error e }

/-- prepare_track.decompress: skips when the extension-stripped file
already exists with the expected uncompressed size, else runs the
decompression path. -/
def decompress (env : Env) (data_set_path : String) (expected_size_in_bytes : JsonVal) (fs : FS) :
    DecompressOut :=
  match fsGet fs (splitext data_set_path).1 with
  | some n =>
    if jsonEqNat expected_size_in_bytes n then
      { fs := fs, decompCalls := 0, result := .ok (splitext data_set_path).1 }
    else decompress_run env data_set_path expected_size_in_bytes fs
  | none => decompress_run env data_set_path expected_size_in_bytes fs

/-- The download URL of a document group: source root plus the base name
of the archive. -/
def dataUrl (source_root_url : JsonVal) (arch : String) : String :=
  pyStr source_root_url ++ "/" ++ basename arch

/-- The body of the prepare_track loop for one document group: nothing for
a group without an archive; otherwise download, decompress and offset
rebuild in order, each exception aborting the rest (once err is set the
whole loop is over, so later groups pass through untouched). -/
def stage_type (env : Env) (source_root_url : JsonVal) (ty : TrackType) (st : StageState) :
    StageState :=
  match st.err with
  | some _ => st
  | none =>
    match ty.document_archive with
    | none => st
    | some arch =>
      let d := download env (dataUrl source_root_url arch) arch ty.compressed_size_in_bytes st.fs
      match d.result with
      | .error e =>
        { fs := d.fs, netCalls := st.netCalls + d.netCalls, decompCalls := st.decompCalls,
          offsetRebuilds := st.offsetRebuilds, err := some e }
      | .ok _ =>
        let dc := decompress env arch ty.uncompressed_size_in_bytes d.fs
        match dc.result with
        | .error e =>
          { fs := dc.fs, netCalls := st.netCalls + d.netCalls,
            decompCalls := st.decompCalls + dc.decompCalls,
            offsetRebuilds := st.offsetRebuilds, err := some e }
        | .ok _ =>
          { fs := dc.fs, netCalls := st.netCalls + d.netCalls,
            decompCalls := st.decompCalls + dc.decompCalls,
            offsetRebuilds := st.offsetRebuilds + 1, err := none }

/-- The inner loop of prepare_track over the types of one index. -/
def stage_type_list (env : Env) (source_root_url : JsonVal) (tys : List TrackType)
    (st : StageState) : StageState :=
  match tys with
  | [] => st
  | ty :: rest => stage_type_list env source_root_url rest (stage_type env source_root_url ty st)

/-- The outer loop of prepare_track over the indices of the track. -/
def stage_index_list (env : Env) (source_root_url : JsonVal) (idxs : List Index)
    (st : StageState) : StageState :=
  match idxs with
  | [] => st
  | idx :: rest => stage_index_list env source_root_url rest (stage_type_list env source_root_url idx.types st)

/-- prepare_track: stages every document group of every index of the
track against the given filesystem. -/
def prepare_track (env : Env) (t : Track) (fs : FS) : StageState :=
  stage_index_list env t.source_root_url t.indices
    { fs := fs, netCalls := 0, decompCalls := 0, offsetRebuilds := 0, err := none }

/-- msg names sub: sub occurs verbatim inside msg.  Used to state that an
error message names an entity, a path or a byte count. -/
def containsName (msg sub : String) : Prop :=
  ∃ pre post, msg = pre ++ sub ++ post

/-- The observable actions of TrackRepository._update: git checkouts and
rebases, the logged notice that remote track data was missing and local
data will be tried, and the console warning after a rebase conflict. -/
inductive UpdEvent where
  | checkout (branch : String)
  | rebase (branch : String)
  | warnRemoteMiss
  | warnLocalChanges
deriving DecidableEq

/-- The message of the SystemSetupError raised when no branch matches the
distribution version at all. -/
def cannotFindTrackDataMsg (distribution_version : Option String) : String :=
  "Cannot find track data for distribution version "
    ++ (match distribution_version with | some v => v | none => "None")

/-- TrackRepository._update.  The git and version utilities are not under
src/, so: best_match stands for versions.best_match (an arbitrary choice
function over the known branch names), the remote and local branch listings
are given as arguments, checkouts always succeed, and rebaseConflict says
whether git.rebase raises the SupplyError that the source catches and
downgrades to a console warning.  Online with a remote: a matching remote
branch is checked out and rebased; on a remote miss a notice is logged and
the local branches are searched; a local match is checked out; no match at
all raises SystemSetupError (which, not being a SupplyError, escapes the
surrounding handler unchanged). -/
def TrackRepository_update (remote offline : Bool)
    (best_match : List String → Option String → Option String)
    (remoteBranches localBranches : List String) (distribution_version : Option String)
    (rebaseConflict : Bool) : List UpdEvent × Option PyErr :=
  if remote && !offline then
    match best_match remoteBranches distribution_version with
    | some b =>
      ([UpdEvent.checkout b, UpdEvent.rebase b] ++ (if rebaseConflict then [UpdEvent.warnLocalChanges] else []), none)
    | none =>
      match best_match localBranches distribution_version with
      | some b => ([UpdEvent.warnRemoteMiss, UpdEvent.checkout b], none)
      | none =>
        ([UpdEvent.warnRemoteMiss],
         some (.systemSetupError (cannotFindTrackDataMsg distribution_version)))
  else
    match best_match localBranches distribution_version with
    | some b => ([UpdEvent.checkout b], none)
    | none => ([], some (.systemSetupError (cannotFindTrackDataMsg distribution_version)))

/-- A document group is already correctly staged on a filesystem: its
archive file exists with the expected compressed size and its
extension-stripped decompressed file exists with the expected uncompressed
size. -/
def staged_ok (fs : FS) (ty : TrackType) : Prop :=
  ∀ arch, ty.document_archive = some arch →
    (∃ n, fsGet fs arch = some n ∧ jsonEqNat ty.compressed_size_in_bytes n = true) ∧
    (∃ m, fsGet fs (splitext arch).1 = some m ∧ jsonEqNat ty.uncompressed_size_in_bytes m = true)

/-- Fixture: an operations table holding one operation named op1. -/
def c1Op : Operation :=
  { name := .str "op1", operation_type := "index", params := .obj [("name", .str "op1")],
    param_source := .null }

/-- Fixture: a parallel block that declares no block-wide defaults, whose
single child task declares no values of its own. -/
def c1ParallelSpec : JsonVal :=
  .obj [("tasks", .arr [.obj [("operation", .str "op1")]])]

/-- Fixture: a document group spec declaring an archive but no size
fields. -/
def c7TypeSpec : JsonVal :=
  .obj [("name", .str "docs"), ("mapping", .str "m.json"), ("documents", .str "d.json.bz2")]

/-- Fixture: an environment whose download and decompression effects leave
the filesystem unchanged. -/
def idEnv : Env :=
  { offline := false, netEffect := fun _ _ fs => (fs, true), decompEffect := fun _ _ fs => fs }

/-- Fixture: a document group whose archive d.json.bz2 expects 100
compressed and 200 uncompressed bytes. -/
def c2Type : TrackType :=
  { name := .str "docs", mapping_file := "map/m.json", document_file := some "data/d.json",
    document_archive := some "data/d.json.bz2", number_of_documents := .num 5,
    compressed_size_in_bytes := .num 100, uncompressed_size_in_bytes := .num 200 }

/-- Fixture: a track with one index holding the one document group. -/
def c2Track : Track :=
  { name := "t", short_description := .null, description := .null,
    source_root_url := .str "http://example.org/data", challenges := [],
    indices := [{ name := .str "i", types := [c2Type] }] }

/-- Fixture: a filesystem on which the archive and its decompressed file
already have the expected sizes. -/
def c2Fs : FS :=
  [("data/d.json.bz2", 100), ("data/d.json", 200)]

/-! ## Theorems -/

/-- Binding an Except error short-circuits. -/
theorem except_bind_error {ε α β : Type} (e : ε) (k : α → Except ε β) :
    ((Except.error e : Except ε α) >>= k) = .error e := rfl

/-- Binding an Except success applies the continuation. -/
theorem except_bind_ok {ε α β : Type} (a : α) (k : α → Except ε β) :
    ((Except.ok a : Except ε α) >>= k) = k a := rfl

/-- Claim C10: parse_task reads the operation reference by direct,
unguarded indexing, so a task spec lacking the operation key fails with a
plain KeyError that carries only the key, which is not a track syntax
error and carries no track or challenge attribution. -/
theorem claim_C10_missing_operation_key (name : String) (fields : List (String × JsonVal))
    (ops : OpsDict) (challenge_name dwi di : JsonVal)
    (h : lookup1 fields "operation" = none) :
    parse_task name (.obj fields) ops challenge_name dwi di = .error (.keyError "operation") ∧
    ∀ m, PyErr.keyError "operation" ≠ PyErr.trackSyntaxError m := by
  constructor
  · have hg : getIndex (.obj fields) "operation" = .error (.keyError "operation") := by
      simp [getIndex, h]
    unfold parse_task
    rw [hg, except_bind_error]
  · intro m hm
    exact PyErr.noConfusion hm

/-- Witness for claim C10 at a task spec holding only a clients field. -/
theorem claim_C10_missing_operation_key_witness :
    lookup1 [("clients", JsonVal.num 2)] "operation" = none ∧
    parse_task "t" (.obj [("clients", .num 2)]) [] (.str "c") (.num 0) (.num 1)
      = .error (.keyError "operation") := by
  refine ⟨rfl, ?_⟩
  exact (claim_C10_missing_operation_key "t" [("clients", JsonVal.num 2)] [] (.str "c")
    (.num 0) (.num 1) rfl).1

/-- Claim C3: a schedule entry whose declared operation name is absent
from the operations table makes parse_task fail with a syntax error whose
message names both the enclosing challenge and the missing operation. -/
theorem claim_C3_unresolved_operation (name : String) (task_spec : JsonVal) (ops : OpsDict)
    (challenge_name opn dwi di : JsonVal)
    (h1 : getIndex task_spec "operation" = .ok opn) (h2 : hashable opn = true)
    (h3 : dictMem ops opn = false) :
    parse_task name task_spec ops challenge_name dwi di
      = .error (.trackSyntaxError (trackError name (nonExistingOpMsg challenge_name opn)))
    ∧ containsName (trackError name (nonExistingOpMsg challenge_name opn)) (pyStr challenge_name)
    ∧ containsName (trackError name (nonExistingOpMsg challenge_name opn)) (pyStr opn) := by
  refine ⟨?_, ?_, ?_⟩
  · unfold parse_task
    rw [h1, except_bind_ok]
    simp [h2, h3]
  · refine ⟨"Track \x27" ++ name ++ "\x27 is invalid. " ++ "\x27schedule\x27 for challenge \x27",
      "\x27 contains a non-existing operation \x27" ++ pyStr opn
        ++ "\x27. Please add an operation \x27" ++ pyStr opn
        ++ "\x27 to the \x27operations\x27 block.", ?_⟩
    simp only [trackError, nonExistingOpMsg, String.append_assoc]
  · refine ⟨"Track \x27" ++ name ++ "\x27 is invalid. " ++ "\x27schedule\x27 for challenge \x27"
        ++ pyStr challenge_name ++ "\x27 contains a non-existing operation \x27",
      "\x27. Please add an operation \x27" ++ pyStr opn
        ++ "\x27 to the \x27operations\x27 block.", ?_⟩
    simp only [trackError, nonExistingOpMsg, String.append_assoc]

/-- Witness for claim C3 at a schedule entry naming the undefined
operation nope inside challenge c. -/
theorem claim_C3_unresolved_operation_witness :
    getIndex (.obj [("operation", .str "nope")]) "operation" = .ok (.str "nope") ∧
    hashable (.str "nope") = true ∧
    dictMem [(JsonVal.str "op1", c1Op)] (.str "nope") = false ∧
    parse_task "t" (.obj [("operation", .str "nope")]) [(JsonVal.str "op1", c1Op)] (.str "c")
        (.num 0) (.num 1)
      = .error (.trackSyntaxError (trackError "t" (nonExistingOpMsg (.str "c") (.str "nope")))) := by
  refine ⟨rfl, rfl, rfl, ?_⟩
  exact (claim_C3_unresolved_operation "t" (.obj [("operation", .str "nope")])
    [(JsonVal.str "op1", c1Op)] (.str "c") (.str "nope") (.num 0) (.num 1) rfl rfl rfl).1

/-- The character data of an appended string is the appended data. -/
theorem str_data_append (a b : String) : (a ++ b).data = a.data ++ b.data := rfl

/-- Every character of a named substring occurs in the containing
message. -/
theorem containsName_mem (msg sub : String) (h : containsName msg sub) :
    ∀ c, c ∈ sub.data → c ∈ msg.data := by
  obtain ⟨pre, post, rfl⟩ := h
  intro c hc
  simp only [str_data_append, List.mem_append]
  exact Or.inl (Or.inr hc)

/-- Claim C5, refuted at a concrete input: with a context tag that is
present but falsy (here the number 0, as for a challenge named 0 in the
document), a missing mandatory element makes _r raise the bare message
that names only the dotted path, because the source tests the tag for
truthiness; the message does not name the context entity at all. -/
theorem claim_C5_counterexample :
    _r "t" (.obj []) ["description"] (.num 0) true .null
      = .error (.trackSyntaxError (trackError "t" (mandatoryMissingMsg ["description"])))
    ∧ ¬ containsName (trackError "t" (mandatoryMissingMsg ["description"])) (pyStr (.num 0))
    ∧ trackError "t" (mandatoryMissingMsg ["description"])
        ≠ trackError "t" (mandatoryMissingInMsg ["description"] (.num 0)) := by
  refine ⟨rfl, ?_, by decide⟩
  intro hcon
  exact absurd (containsName_mem _ _ hcon '0' (by decide)) (by decide)

/-- Claim C5 as amended: a mandatory dotted-path lookup through _r that
hits a missing key fails with a syntax error; when the context tag is
truthy (the source tests if error_ctx:) the message names both the
dotted path and the context entity, while a falsy tag yields the bare
message naming only the path; an optional lookup returns the supplied
default and raises nothing. -/
theorem claim_C5_context_tagged_lookup (name : String) (root : JsonVal) (path : List String)
    (ctx ectx : JsonVal) (default_value : JsonVal) (k : String)
    (h : walk root path = .error (.keyError k)) :
    (truthy ctx = true →
       _r name root path ctx true default_value
         = .error (.trackSyntaxError (trackError name (mandatoryMissingInMsg path ctx)))
       ∧ containsName (trackError name (mandatoryMissingInMsg path ctx)) (joinDot path)
       ∧ containsName (trackError name (mandatoryMissingInMsg path ctx)) (pyStr ctx))
    ∧ (truthy ctx = false →
       _r name root path ctx true default_value
         = .error (.trackSyntaxError (trackError name (mandatoryMissingMsg path)))
       ∧ containsName (trackError name (mandatoryMissingMsg path)) (joinDot path))
    ∧ _r name root path ectx false default_value = .ok default_value := by
  refine ⟨fun hctx => ⟨?_, ?_, ?_⟩, fun hctx => ⟨?_, ?_⟩, ?_⟩
  · simp [_r, h, hctx]
  · refine ⟨"Track \x27" ++ name ++ "\x27 is invalid. " ++ "Mandatory element \x27",
      "\x27 is missing in \x27" ++ pyStr ctx ++ "\x27.", ?_⟩
    simp only [trackError, mandatoryMissingInMsg, String.append_assoc]
  · refine ⟨"Track \x27" ++ name ++ "\x27 is invalid. " ++ "Mandatory element \x27"
        ++ joinDot path ++ "\x27 is missing in \x27", "\x27.", ?_⟩
    simp only [trackError, mandatoryMissingInMsg, String.append_assoc]
  · simp [_r, h, hctx]
  · refine ⟨"Track \x27" ++ name ++ "\x27 is invalid. " ++ "Mandatory element \x27",
      "\x27 is missing.", ?_⟩
    simp only [trackError, mandatoryMissingMsg, String.append_assoc]
  · simp [_r, h]

/-- Witness for claim C5 at a meta section missing short-description:
mandatory with the truthy context ctx, mandatory with the falsy empty
context, and optional. -/
theorem claim_C5_context_tagged_lookup_witness :
    walk (.obj [("meta", .obj [])]) ["meta", "short-description"]
      = .error (.keyError "short-description") ∧
    truthy (.str "ctx") = true ∧
    _r "t" (.obj [("meta", .obj [])]) ["meta", "short-description"] (.str "ctx") true .null
      = .error (.trackSyntaxError
          (trackError "t" (mandatoryMissingInMsg ["meta", "short-description"] (.str "ctx")))) ∧
    truthy (.str "") = false ∧
    _r "t" (.obj [("meta", .obj [])]) ["meta", "short-description"] (.str "") true .null
      = .error (.trackSyntaxError
          (trackError "t" (mandatoryMissingMsg ["meta", "short-description"]))) ∧
    _r "t" (.obj [("meta", .obj [])]) ["meta", "short-description"] .null false (.num 1)
      = .ok (.num 1) := by
  refine ⟨rfl, rfl, ?_, rfl, ?_, ?_⟩
  · exact ((claim_C5_context_tagged_lookup "t" (.obj [("meta", .obj [])])
      ["meta", "short-description"] (.str "ctx") .null .null "short-description" rfl).1 rfl).1
  · exact ((claim_C5_context_tagged_lookup "t" (.obj [("meta", .obj [])])
      ["meta", "short-description"] (.str "") .null .null "short-description" rfl).2.1 rfl).1
  · exact (claim_C5_context_tagged_lookup "t" (.obj [("meta", .obj [])])
      ["meta", "short-description"] (.str "ctx") .null (.num 1) "short-description" rfl).2.2

/-- Claim C1, evaluated at the failing input: a ParallelBlock that
declares no block-wide warmup-iterations or iterations parses its child
task (which declares none of its own) to warmup_iterations None and
iterations None, not to the claimed defaults 0 and 1 (clients, by
contrast, does fall back to 1). -/
theorem claim_C1_parallel_child_gets_none :
    parse_parallel "t" c1ParallelSpec [(.str "op1", c1Op)] (.str "c")
      = .ok (.parallel [{ operation := c1Op, warmup_iterations := .null,
                          warmup_time_period := .null, iterations := .null,
                          clients := .num 1, target_throughput := .null }] .null)
    ∧ JsonVal.null ≠ JsonVal.num 0 ∧ JsonVal.null ≠ JsonVal.num 1 := by
  refine ⟨rfl, ?_, ?_⟩
  · intro hh
    exact JsonVal.noConfusion hh
  · intro hh
    exact JsonVal.noConfusion hh

/-- Claim C7, refuted at a concrete input: a document group spec that
declares an archive but omits both size fields parses to a model object
whose archive path is present while both size fields are absent (None), so
parsing does yield an object violating the stated invariant. -/
theorem claim_C7_counterexample :
    _create_type "t" c7TypeSpec "map" "data"
      = .ok { name := .str "docs", mapping_file := "map/m.json",
              document_file := some "data/d.json", document_archive := some "data/d.json.bz2",
              number_of_documents := .num 0, compressed_size_in_bytes := .null,
              uncompressed_size_in_bytes := .null }
    ∧ (some "data/d.json.bz2" : Option String) ≠ none
    ∧ JsonVal.null = JsonVal.null := by
  exact ⟨rfl, fun hh => Option.noConfusion hh, rfl⟩

/-- Claim C6: parse_operations resolves each operation-type string
case/hyphen-insensitively against the closed enumeration of built-in
kinds and stores the canonical name of the matched kind, while an
unmatched string is stored verbatim and parsing proceeds to the next
spec either way (the built-in enumeration itself lives outside src/ and
is abstracted as the list of canonical kind names). -/
theorem claim_C6_operation_type_resolution (builtins : List String) (name : String)
    (op_spec : JsonVal) (rest : List JsonVal) (ops0 : OpsDict) (nm ps : JsonVal) (s : String)
    (h1 : _r name op_spec ["name"] (.str "operations") true .null = .ok nm)
    (h2 : _r name op_spec ["operation-type"] (.str "operations") true .null = .ok (.str s))
    (h3 : _r name op_spec ["param-source"] (.str "operations") false .null = .ok ps)
    (h4 : hashable nm = true) :
    parse_operations name builtins (op_spec :: rest) ops0
      = parse_operations name builtins rest
          (dictInsert ops0 nm
            { name := nm, operation_type := resolve_op_type builtins s, params := op_spec,
              param_source := ps })
    ∧ ((∃ c ∈ builtins, normalize_op c = normalize_op s) →
         resolve_op_type builtins s ∈ builtins
         ∧ normalize_op (resolve_op_type builtins s) = normalize_op s)
    ∧ ((∀ c ∈ builtins, normalize_op c ≠ normalize_op s) → resolve_op_type builtins s = s) := by
  refine ⟨?_, ?_, ?_⟩
  · simp only [parse_operations, h1, h2, h3, h4, except_bind_ok, eq_self_iff_true, if_true]
  · rintro ⟨c, hc, he⟩
    unfold resolve_op_type from_hyphenated_string
    cases hf : builtins.find? (fun c0 => normalize_op c0 == normalize_op s) with
    | none =>
      exact absurd (by simpa using he) (by simpa using List.find?_eq_none.mp hf c hc)
    | some c1 =>
      exact ⟨List.mem_of_find?_eq_some hf, by simpa using List.find?_some hf⟩
  · intro hall
    unfold resolve_op_type from_hyphenated_string
    cases hf : builtins.find? (fun c0 => normalize_op c0 == normalize_op s) with
    | none => rfl
    | some c1 =>
      exact absurd (by simpa using List.find?_some hf)
        (hall c1 (List.mem_of_find?_eq_some hf))

/-- Witness for claim C6: force-merge matches the built-in kind ForceMerge
case/hyphen-insensitively, and my-custom matches nothing and is kept
verbatim. -/
theorem claim_C6_operation_type_resolution_witness :
    _r "t" (.obj [("name", .str "op1"), ("operation-type", .str "force-merge")]) ["name"]
        (.str "operations") true .null = .ok (.str "op1") ∧
    _r "t" (.obj [("name", .str "op1"), ("operation-type", .str "force-merge")])
        ["operation-type"] (.str "operations") true .null = .ok (.str "force-merge") ∧
    parse_operations "t" ["Index", "ForceMerge"]
        [.obj [("name", .str "op1"), ("operation-type", .str "force-merge")]] []
      = parse_operations "t" ["Index", "ForceMerge"] []
          (dictInsert [] (.str "op1")
            { name := .str "op1",
              operation_type := resolve_op_type ["Index", "ForceMerge"] "force-merge",
              params := .obj [("name", .str "op1"), ("operation-type", .str "force-merge")],
              param_source := .null }) ∧
    resolve_op_type ["Index", "ForceMerge"] "force-merge" = "ForceMerge" ∧
    resolve_op_type ["Index", "ForceMerge"] "my-custom" = "my-custom" := by
  refine ⟨rfl, rfl, ?_, rfl, rfl⟩
  exact (claim_C6_operation_type_resolution ["Index", "ForceMerge"] "t"
    (.obj [("name", .str "op1"), ("operation-type", .str "force-merge")]) [] []
    (.str "op1") .null "force-merge" rfl rfl rfl rfl).1

/-- Claim C8: online with a configured remote, when no remote branch
matches the distribution version but a local branch does, _update logs the
fallback notice, checks out the local branch and succeeds; when no local
branch matches either, it fails with a SystemSetupError. -/
theorem claim_C8_local_fallback (best_match : List String → Option String → Option String)
    (remoteBranches localBranches : List String) (v : Option String) (rc : Bool)
    (hmiss : best_match remoteBranches v = none) :
    (∀ b, best_match localBranches v = some b →
       TrackRepository_update true false best_match remoteBranches localBranches v rc
         = ([UpdEvent.warnRemoteMiss, UpdEvent.checkout b], none)) ∧
    (best_match localBranches v = none →
       TrackRepository_update true false best_match remoteBranches localBranches v rc
         = ([UpdEvent.warnRemoteMiss],
            some (.systemSetupError (cannotFindTrackDataMsg v)))) := by
  constructor
  · intro b hb
    simp [TrackRepository_update, hmiss, hb]
  · intro hb
    simp [TrackRepository_update, hmiss, hb]

/-- Witness for claim C8: a matcher finding nothing remotely; branch 5
exists locally in the first scenario, nothing matches in the second. -/
theorem claim_C8_local_fallback_witness :
    (fun (l : List String) (_ : Option String) => l.head?) [] (some "5.0.0") = none ∧
    TrackRepository_update true false (fun l _ => l.head?) [] ["5"] (some "5.0.0") false
      = ([UpdEvent.warnRemoteMiss, UpdEvent.checkout "5"], none) ∧
    TrackRepository_update true false (fun l _ => l.head?) [] [] (some "5.0.0") false
      = ([UpdEvent.warnRemoteMiss],
         some (.systemSetupError (cannotFindTrackDataMsg (some "5.0.0")))) := by
  refine ⟨?_, ?_, ?_⟩
  · rfl
  · exact (claim_C8_local_fallback (fun l _ => l.head?) [] ["5"] (some "5.0.0") false rfl).1
      "5" rfl
  · exact (claim_C8_local_fallback (fun l _ => l.head?) [] [] (some "5.0.0") false rfl).2 rfl

/-- A successful skip test means the archive is on disk with a size that
compares equal to the expected one. -/
theorem download_skip_true (p : String) (size : JsonVal) (fs : FS)
    (h : download_skip p size fs = true) :
    ∃ n, fsGet fs p = some n ∧ jsonEqNat size n = true := by
  unfold download_skip at h
  cases hf : fsGet fs p with
  | none => rw [hf] at h; exact absurd h (by simp)
  | some n => rw [hf] at h; exact ⟨n, rfl, h⟩

/-- A document group that is already correctly staged passes through
stage_type with no download, no decompression and no state change apart
from the offset rebuild counter. -/
theorem stage_type_staged (env : Env) (url : JsonVal) (ty : TrackType) (fs0 : FS)
    (nc dc orb : Nat) (h : staged_ok fs0 ty) :
    ∃ k, stage_type env url ty ⟨fs0, nc, dc, orb, none⟩ = ⟨fs0, nc, dc, k, none⟩ := by
  cases harch : ty.document_archive with
  | none =>
    refine ⟨orb, ?_⟩
    simp [stage_type, harch]
  | some arch =>
    obtain ⟨⟨n, hn, hcn⟩, ⟨m, hm, hcm⟩⟩ := h arch harch
    have hskip : download_skip arch ty.compressed_size_in_bytes fs0 = true := by
      unfold download_skip
      rw [hn]
      exact hcn
    have hdl : download env (dataUrl url arch) arch ty.compressed_size_in_bytes fs0
        = { fs := fs0, netCalls := 0, result := .ok false } := by
      unfold download
      rw [if_pos hskip]
    have hdc : decompress env arch ty.uncompressed_size_in_bytes fs0
        = { fs := fs0, decompCalls := 0, result := .ok (splitext arch).1 } := by
      unfold decompress
      rw [hm]
      simp [hcm]
    refine ⟨orb + 1, ?_⟩
    simp [stage_type, harch, hdl, hdc]

/-- Iterating stage_type over already-staged groups only advances the
offset rebuild counter. -/
theorem stage_type_list_staged (env : Env) (url : JsonVal) (tys : List TrackType) (fs0 : FS)
    (h : ∀ ty ∈ tys, staged_ok fs0 ty) :
    ∀ nc dc orb : Nat,
      ∃ k, stage_type_list env url tys ⟨fs0, nc, dc, orb, none⟩ = ⟨fs0, nc, dc, k, none⟩ := by
  induction tys with
  | nil => exact fun nc dc orb => ⟨orb, rfl⟩
  | cons ty rest ih =>
    intro nc dc orb
    obtain ⟨k1, hk1⟩ := stage_type_staged env url ty fs0 nc dc orb (h ty (by simp))
    obtain ⟨k2, hk2⟩ := ih (fun ty2 hm2 => h ty2 (by simp [hm2])) nc dc k1
    refine ⟨k2, ?_⟩
    unfold stage_type_list
    rw [hk1, hk2]

/-- Iterating over whole indices of already-staged groups only advances
the offset rebuild counter. -/
theorem stage_index_list_staged (env : Env) (url : JsonVal) (idxs : List Index) (fs0 : FS)
    (h : ∀ idx ∈ idxs, ∀ ty ∈ idx.types, staged_ok fs0 ty) :
    ∀ nc dc orb : Nat,
      ∃ k, stage_index_list env url idxs ⟨fs0, nc, dc, orb, none⟩ = ⟨fs0, nc, dc, k, none⟩ := by
  induction idxs with
  | nil => exact fun nc dc orb => ⟨orb, rfl⟩
  | cons idx rest ih =>
    intro nc dc orb
    obtain ⟨k1, hk1⟩ := stage_type_list_staged env url idx.types fs0
      (fun ty hty => h idx (by simp) ty hty) nc dc orb
    obtain ⟨k2, hk2⟩ := ih (fun idx2 hm2 => h idx2 (by simp [hm2])) nc dc k1
    refine ⟨k2, ?_⟩
    unfold stage_index_list
    rw [hk1, hk2]

/-- Claim C2: the Asset Stager is idempotent.  When every document group
with an archive already has its archive at the expected compressed size
and its decompressed file at the expected uncompressed size, prepare_track
performs no download and no decompression, raises nothing and leaves the
filesystem untouched (only offset tables are rebuilt). -/
theorem claim_C2_stager_idempotent (env : Env) (t : Track) (fs : FS)
    (h : ∀ idx ∈ t.indices, ∀ ty ∈ idx.types, staged_ok fs ty) :
    (prepare_track env t fs).netCalls = 0 ∧ (prepare_track env t fs).decompCalls = 0 ∧
    (prepare_track env t fs).err = none ∧ (prepare_track env t fs).fs = fs := by
  obtain ⟨k, hk⟩ := stage_index_list_staged env t.source_root_url t.indices fs h 0 0 0
  unfold prepare_track
  rw [hk]
  exact ⟨rfl, rfl, rfl, rfl⟩

/-- Witness for claim C2 at a one-group track whose archive (100 bytes)
and decompressed file (200 bytes) are already in place. -/
theorem claim_C2_stager_idempotent_witness :
    (∀ idx ∈ c2Track.indices, ∀ ty ∈ idx.types, staged_ok c2Fs ty) ∧
    (prepare_track idEnv c2Track c2Fs).netCalls = 0 ∧
    (prepare_track idEnv c2Track c2Fs).decompCalls = 0 ∧
    (prepare_track idEnv c2Track c2Fs).err = none ∧
    (prepare_track idEnv c2Track c2Fs).fs = c2Fs := by
  have hh : ∀ idx ∈ c2Track.indices, ∀ ty ∈ idx.types, staged_ok c2Fs ty := by
    intro idx hidx ty hty arch harch
    simp only [c2Track, List.mem_singleton] at hidx
    subst hidx
    simp only [List.mem_singleton] at hty
    subst hty
    simp only [c2Type, Option.some.injEq] at harch
    subst harch
    exact ⟨⟨100, rfl, rfl⟩, ⟨200, rfl, rfl⟩⟩
  exact ⟨hh, claim_C2_stager_idempotent idEnv c2Track c2Fs hh⟩

/-- Claim C4: when the local archive exists after the download step but
its actual byte size differs from the expected compressed size, staging
the group fails with a DataError whose message cites both the actual and
the expected byte counts, and decompression is not performed for that
group. -/
theorem claim_C4_size_mismatch_data_error (env : Env) (root : JsonVal) (ty : TrackType)
    (fs0 : FS) (nc dc orb : Nat) (arch : String) (s : Int) (a : Nat)
    (h1 : ty.document_archive = some arch)
    (h2 : ty.compressed_size_in_bytes = .num s)
    (h3 : fsGet (download_fs1 env (dataUrl root arch) arch (.num s) fs0) arch = some a)
    (h4 : (a : Int) ≠ s) :
    (stage_type env root ty ⟨fs0, nc, dc, orb, none⟩).err
      = some (.dataError (corruptDownloadMsg arch a (toString s)))
    ∧ (stage_type env root ty ⟨fs0, nc, dc, orb, none⟩).decompCalls = dc
    ∧ containsName (corruptDownloadMsg arch a (toString s)) (toString a)
    ∧ containsName (corruptDownloadMsg arch a (toString s)) (toString s) := by
  have hskip : download_skip arch (.num s) fs0 = false := by
    cases hh : download_skip arch (.num s) fs0 with
    | false => rfl
    | true =>
      exfalso
      obtain ⟨n, hn, he⟩ := download_skip_true arch (.num s) fs0 hh
      have hfs1 : download_fs1 env (dataUrl root arch) arch (.num s) fs0 = fs0 := by
        unfold download_fs1
        rw [if_pos hh]
      rw [hfs1, hn] at h3
      have hna : n = a := by injection h3
      subst hna
      have hsn : s = (n : Int) := by simpa [jsonEqNat, keyEq] using he
      exact h4 hsn.symm
  have hne : jsonEqNat (.num s) a = false := by
    simp only [jsonEqNat, keyEq]
    simpa using fun hh => h4 hh.symm
  have hdl : download env (dataUrl root arch) arch (.num s) fs0
      = { fs := download_fs1 env (dataUrl root arch) arch (.num s) fs0,
          netCalls := download_netCalls env arch (.num s) fs0,
          result := .error (.dataError (corruptDownloadMsg arch a (toString s))) } := by
    unfold download
    rw [if_neg (by simp [hskip]), h3]
    simp [hne, pyFmtD]
  have hst : (stage_type env root ty ⟨fs0, nc, dc, orb, none⟩).err
        = some (.dataError (corruptDownloadMsg arch a (toString s)))
      ∧ (stage_type env root ty ⟨fs0, nc, dc, orb, none⟩).decompCalls = dc := by
    constructor <;> simp [stage_type, h1, h2, hdl]
  refine ⟨hst.1, hst.2, ?_, ?_⟩
  · refine ⟨"[" ++ arch ++ "] is corrupt. Downloaded [",
      "] bytes but [" ++ toString s ++ "] bytes are expected.", ?_⟩
    simp only [corruptDownloadMsg, String.append_assoc]
  · refine ⟨"[" ++ arch ++ "] is corrupt. Downloaded [" ++ toString a ++ "] bytes but [",
      "] bytes are expected.", ?_⟩
    simp only [corruptDownloadMsg, String.append_assoc]

/-- Witness for claim C4: expected 100 compressed bytes, 90 bytes on disk,
no decompression performed and the message cites 90 and 100. -/
theorem claim_C4_size_mismatch_data_error_witness :
    fsGet (download_fs1 idEnv (dataUrl (.str "http://example.org/data") "data/d.json.bz2")
        "data/d.json.bz2" (.num 100) [("data/d.json.bz2", 90)]) "data/d.json.bz2" = some 90 ∧
    ((90 : Nat) : Int) ≠ 100 ∧
    (stage_type idEnv (.str "http://example.org/data") c2Type
        ⟨[("data/d.json.bz2", 90)], 0, 0, 0, none⟩).err
      = some (.dataError (corruptDownloadMsg "data/d.json.bz2" 90 (toString (100 : Int))))
    ∧ (stage_type idEnv (.str "http://example.org/data") c2Type
        ⟨[("data/d.json.bz2", 90)], 0, 0, 0, none⟩).decompCalls = 0 := by
  have hc := claim_C4_size_mismatch_data_error idEnv (.str "http://example.org/data") c2Type
    [("data/d.json.bz2", 90)] 0 0 0 "data/d.json.bz2" 100 90 rfl rfl rfl (by decide)
  exact ⟨rfl, by decide, hc.1, hc.2.1⟩

/-- Claim C9: when no local archive exists after the download step,
staging the group fails with a SystemSetupError whose message depends on
the mode: the offline message tells the caller to disable offline mode,
the online message names the URL, tells the caller to verify that data are
available there and to check the internet connection. -/
theorem claim_C9_missing_archive_setup_error (env : Env) (root : JsonVal) (ty : TrackType)
    (fs0 : FS) (nc dc orb : Nat) (arch : String)
    (h1 : ty.document_archive = some arch)
    (h3 : fsGet (download_fs1 env (dataUrl root arch) arch ty.compressed_size_in_bytes fs0) arch
      = none) :
    (stage_type env root ty ⟨fs0, nc, dc, orb, none⟩).err
      = some (.systemSetupError (if env.offline then missingOfflineMsg arch
                                 else missingOnlineMsg (dataUrl root arch) arch))
    ∧ (stage_type env root ty ⟨fs0, nc, dc, orb, none⟩).decompCalls = dc
    ∧ containsName (missingOfflineMsg arch) "disable offline mode"
    ∧ containsName (missingOnlineMsg (dataUrl root arch) arch)
        ". Please verify that data are available at "
    ∧ containsName (missingOnlineMsg (dataUrl root arch) arch) (dataUrl root arch)
    ∧ containsName (missingOnlineMsg (dataUrl root arch) arch)
        "check your internet connection" := by
  have hskip : download_skip arch ty.compressed_size_in_bytes fs0 = false := by
    cases hh : download_skip arch ty.compressed_size_in_bytes fs0 with
    | false => rfl
    | true =>
      exfalso
      obtain ⟨n, hn, he⟩ := download_skip_true arch ty.compressed_size_in_bytes fs0 hh
      have hfs1 : download_fs1 env (dataUrl root arch) arch ty.compressed_size_in_bytes fs0
          = fs0 := by
        unfold download_fs1
        rw [if_pos hh]
      rw [hfs1, hn] at h3
      exact Option.noConfusion h3
  have hdl : download env (dataUrl root arch) arch ty.compressed_size_in_bytes fs0
      = { fs := download_fs1 env (dataUrl root arch) arch ty.compressed_size_in_bytes fs0,
          netCalls := download_netCalls env arch ty.compressed_size_in_bytes fs0,
          result := .error (.systemSetupError
            (if env.offline then missingOfflineMsg arch
             else missingOnlineMsg (dataUrl root arch) arch)) } := by
    unfold download
    rw [if_neg (by simp [hskip]), h3]
  refine ⟨?_, ?_, ?_, ?_, ?_, ?_⟩
  · simp [stage_type, h1, hdl]
  · simp [stage_type, h1, hdl]
  · refine ⟨"Cannot find " ++ arch ++ ". Please ", " and retry again.", ?_⟩
    have hlit : (". Please disable offline mode and retry again." : String)
        = ". Please " ++ ("disable offline mode" ++ " and retry again.") := rfl
    simp only [missingOfflineMsg, hlit, String.append_assoc]
  · refine ⟨"Cannot download from " ++ dataUrl root arch ++ " to " ++ arch,
      dataUrl root arch ++ " and check your internet connection.", ?_⟩
    simp only [missingOnlineMsg, String.append_assoc]
  · refine ⟨"Cannot download from ",
      " to " ++ arch ++ ". Please verify that data are available at " ++ dataUrl root arch
        ++ " and check your internet connection.", ?_⟩
    simp only [missingOnlineMsg, String.append_assoc]
  · refine ⟨"Cannot download from " ++ dataUrl root arch ++ " to " ++ arch
        ++ ". Please verify that data are available at " ++ dataUrl root arch ++ " and ",
      ".", ?_⟩
    have hlit : (" and check your internet connection." : String)
        = " and " ++ ("check your internet connection" ++ ".") := rfl
    simp only [missingOnlineMsg, hlit, String.append_assoc]

/-- Witness for claim C9: offline mode with an empty filesystem; the
stager stops with the setup error telling the caller to disable offline
mode. -/
theorem claim_C9_missing_archive_setup_error_witness :
    fsGet (download_fs1
        { offline := true, netEffect := fun _ _ fs => (fs, true),
          decompEffect := fun _ _ fs => fs }
        (dataUrl (.str "http://example.org/data") "data/d.json.bz2") "data/d.json.bz2"
        c2Type.compressed_size_in_bytes []) "data/d.json.bz2" = none ∧
    (stage_type
        { offline := true, netEffect := fun _ _ fs => (fs, true),
          decompEffect := fun _ _ fs => fs }
        (.str "http://example.org/data") c2Type ⟨[], 0, 0, 0, none⟩).err
      = some (.systemSetupError (missingOfflineMsg "data/d.json.bz2")) := by
  have hc := claim_C9_missing_archive_setup_error
    { offline := true, netEffect := fun _ _ fs => (fs, true), decompEffect := fun _ _ fs => fs }
    (.str "http://example.org/data") c2Type [] 0 0 0 "data/d.json.bz2" rfl rfl
  exact ⟨rfl, hc.1⟩

/-- Claim C7 as amended: the parser does not enforce the archive-implies-
sizes invariant.  A document group spec declaring a (non-empty) archive
name parses successfully whatever size fields it omits: the archive and
document paths are derived from the dataset directory, and each omitted
size field is simply stored as absent (None). -/
theorem claim_C7_sizes_not_enforced (name : String) (fields : List (String × JsonVal))
    (mapping_dir data_dir : String) (d : String) (nm mp : JsonVal)
    (hd : lookup1 fields "documents" = some (.str d)) (hne : d ≠ "")
    (hn : lookup1 fields "name" = some nm) (hm : lookup1 fields "mapping" = some mp)
    (hc : lookup1 fields "compressed-bytes" = none)
    (hu : lookup1 fields "uncompressed-bytes" = none) :
    _create_type name (.obj fields) mapping_dir data_dir
      = .ok { name := nm, mapping_file := mapping_dir ++ "/" ++ pyStr mp,
              document_file := some (data_dir ++ "/" ++ (splitext d).1),
              document_archive := some (data_dir ++ "/" ++ d),
              number_of_documents := (lookup1 fields "document-count").getD (.num 0),
              compressed_size_in_bytes := .null,
              uncompressed_size_in_bytes := .null } := by
  have h1 : _r name (.obj fields) ["documents"] .null false .null = .ok (.str d) := by
    simp [_r, walk, getIndex, hd]
  have h2 : _r name (.obj fields) ["name"] .null true .null = .ok nm := by
    simp [_r, walk, getIndex, hn]
  have h3 : _r name (.obj fields) ["mapping"] .null true .null = .ok mp := by
    simp [_r, walk, getIndex, hm]
  have h4 : _r name (.obj fields) ["document-count"] .null false (.num 0)
      = .ok ((lookup1 fields "document-count").getD (.num 0)) := by
    cases hdc : lookup1 fields "document-count" with
    | none => simp [_r, walk, getIndex, hdc]
    | some v => simp [_r, walk, getIndex, hdc]
  have h5 : _r name (.obj fields) ["compressed-bytes"] .null false .null = .ok .null := by
    simp [_r, walk, getIndex, hc]
  have h6 : _r name (.obj fields) ["uncompressed-bytes"] .null false .null = .ok .null := by
    simp [_r, walk, getIndex, hu]
  have ht : truthy (.str d) = true := by simp [truthy, hne]
  simp only [_create_type, h1, h2, h3, h4, h5, h6, ht, except_bind_ok, eq_self_iff_true,
    if_true]

/-- Witness for claim C7 as amended, at the concrete spec declaring the
archive d.json.bz2 and no size fields. -/
theorem claim_C7_sizes_not_enforced_witness :
    lookup1 [("name", JsonVal.str "docs"), ("mapping", JsonVal.str "m.json"),
        ("documents", JsonVal.str "d.json.bz2")] "documents" = some (.str "d.json.bz2") ∧
    ("d.json.bz2" : String) ≠ "" ∧
    lookup1 [("name", JsonVal.str "docs"), ("mapping", JsonVal.str "m.json"),
        ("documents", JsonVal.str "d.json.bz2")] "compressed-bytes" = none ∧
    _create_type "t" c7TypeSpec "map" "data"
      = .ok { name := .str "docs", mapping_file := "map/" ++ pyStr (.str "m.json"),
              document_file := some ("data/" ++ (splitext "d.json.bz2").1),
              document_archive := some ("data/" ++ "d.json.bz2"),
              number_of_documents :=
                (lookup1 [("name", JsonVal.str "docs"), ("mapping", JsonVal.str "m.json"),
                  ("documents", JsonVal.str "d.json.bz2")] "document-count").getD (.num 0),
              compressed_size_in_bytes := .null,
              uncompressed_size_in_bytes := .null } := by
  refine ⟨rfl, by decide, rfl, ?_⟩
  exact claim_C7_sizes_not_enforced "t"
    [("name", JsonVal.str "docs"), ("mapping", JsonVal.str "m.json"),
      ("documents", JsonVal.str "d.json.bz2")]
    "map" "data" "d.json.bz2" (.str "docs") (.str "m.json") rfl (by decide) rfl rfl rfl rfl

end Rally
